import Mathlib

/-!
# Verification of the CRM data-access and query layer

Shallow embedding of the data model and the create/filter/paginate/update/
aggregate operations of the `app/` backend (SQLAlchemy models in
`app/models/*.py`, CRUD in `app/crud/*.py`, route handlers in `app/api/*.py`),
together with proofs of the behavioural claims C1-C10 about that layer.

Modelling conventions:
* machine timestamps are `Int`, surrogate ids are `Nat`, monetary values
  (`Numeric(10,2)`) are `ℚ`;
* a SQL nullable column is `Option`; a sparse (pydantic `exclude_unset`)
  update payload represents "field provided" as an outer `Option`, so a
  nullable column's payload slot is `Option (Option τ)` (`none` = omitted,
  `some none` = explicitly set to NULL);
* Python truthiness guards from the CRUD code (`if contact_id:`,
  `if search:`, `if tags:`) are kept: `None`, `0`, `""` and `[]` all skip
  the corresponding filter;
* the configured database is PostgreSQL (`app/database.py`), so
  `ORDER BY enum_column` follows the enum's declaration order and plain
  `ASC` puts NULLs last; `ORDER BY` result order is realised here with
  `List.insertionSort`, a deterministic sort, which is all the claims need;
* the store keeps lists of rows; surrogate ids are primary keys, so
  "update the row found by id" is rendered as a map over the list.
-/

namespace Crm

/-- Contact lifecycle status, `ContactStatus` in `app/models/contact.py`
(declaration order: lead, prospect, client, lost, archived). -/
inductive ContactStatus
  | lead | prospect | client | lost | archived
deriving DecidableEq, Repr

/-- `InteractionType` in `app/models/interaction.py`. -/
inductive InteractionType
  | call | email | meeting | note | other
deriving DecidableEq, Repr

/-- `ProposalStatus` in `app/models/proposal.py`
(declaration order: draft, submitted, won, lost, ignored, expired). -/
inductive ProposalStatus
  | draft | submitted | won | lost | ignored | expired
deriving DecidableEq, Repr

/-- `ActionStatus` in `app/models/action.py`. -/
inductive ActionStatus
  | pending | completed | cancelled
deriving DecidableEq, Repr

/-- `ActionPriority` in `app/models/action.py`
(declaration order: low, medium, high, urgent; PostgreSQL sorts the native
enum by exactly this order). -/
inductive ActionPriority
  | low | medium | high | urgent
deriving DecidableEq, Repr

/-- `ActionType` in `app/models/action.py`. -/
inductive ActionType
  | call | meeting | follow_up | email | other
deriving DecidableEq, Repr

/-- A `contacts` row (`Contact` in `app/models/contact.py`).  `tags` is a
nullable array column whose create-path default is the empty list; claims
never distinguish a NULL tags column from an empty one, so it is a plain
list here. -/
structure Contact where
  id : Nat
  first_name : String
  last_name : String
  email : Option String := none
  phone : Option String := none
  company : Option String := none
  job_title : Option String := none
  status : ContactStatus := .lead
  source : Option String := none
  owner_id : Option Nat := none
  tags : List String := []
  notes : Option String := none
  next_action : Option Int := none
  created_at : Int := 0
  updated_at : Int := 0
deriving DecidableEq, Repr

/-- An `interactions` row (`Interaction` in `app/models/interaction.py`). -/
structure Interaction where
  id : Nat
  contact_id : Nat
  type : InteractionType := .note
  occurred_at : Int := 0
  summary : String := ""
  outcome : Option String := none
  created_by : Option String := none
  created_at : Int := 0
  updated_at : Int := 0
deriving DecidableEq, Repr

/-- A `proposals` row (`Proposal` in `app/models/proposal.py`). -/
structure Proposal where
  id : Nat
  contact_id : Nat
  title : String := ""
  description : Option String := none
  value : Option ℚ := none
  status : ProposalStatus := .draft
  applied_at : Option Int := none
  created_at : Int := 0
  updated_at : Int := 0
  expires_at : Option Int := none
deriving DecidableEq, Repr

/-- An `actions` row (`Action` in `app/models/action.py`). -/
structure Action where
  id : Nat
  contact_id : Nat
  proposal_id : Option Nat := none
  interaction_id : Option Nat := none
  title : String := ""
  description : Option String := none
  status : ActionStatus := .pending
  completed_at : Option Int := none
  created_at : Int := 0
  updated_at : Int := 0
  due_at : Option Int := none
  action_type : ActionType := .other
  assigned_to : Option Nat := none
  priority : ActionPriority := .medium
deriving DecidableEq, Repr

/-- The four tables of the store. -/
structure DB where
  contacts : List Contact := []
  interactions : List Interaction := []
  proposals : List Proposal := []
  actions : List Action := []
deriving DecidableEq, Repr

/-! ## Query helpers -/

/-- Case-folded character list of a string, for `ILIKE`. -/
def lowerChars (s : String) : List Char :=
  s.data.map Char.toLower

/-- `pat` occurs as a contiguous sublist of `hay`. -/
def containsSub (hay pat : List Char) : Bool :=
  (List.range (hay.length + 1)).any fun i => (hay.drop i).take pat.length == pat

/-- SQL `column ILIKE '%pat%'`: case-insensitive substring match. -/
def ilike (pat s : String) : Bool :=
  containsSub (lowerChars s) (lowerChars pat)

/-- The search disjunction of `get_contacts` / `search_contacts` in
`app/crud/contact.py`: first name OR last name OR email OR company; a NULL
column never matches (SQL three-valued logic). -/
def contactSearchHit (pat : String) (c : Contact) : Bool :=
  ilike pat c.first_name || ilike pat c.last_name ||
    (match c.email with | some e => ilike pat e | none => false) ||
    (match c.company with | some v => ilike pat v | none => false)

/-- Conjunctive filter pipeline of `get_contacts` (`app/crud/contact.py`):
status (skipped when absent), search (`if search:` - empty string is falsy),
tags (`Contact.tags.contains(tags)`, PostgreSQL array `@>`: all listed tags
must be present; `if tags:` - empty list is falsy). -/
def filteredContacts (contacts : List Contact) (status : Option ContactStatus)
    (search : Option String) (tags : Option (List String)) : List Contact :=
  let q := contacts
  let q := match status with
    | some st => q.filter fun c => c.status == st
    | none => q
  let q := match search with
    | some s => if s.isEmpty then q else q.filter (contactSearchHit s)
    | none => q
  match tags with
  | some ts => if ts.isEmpty then q else q.filter fun c => ts.all fun t => c.tags.contains t
  | none => q

/-- `ORDER BY Contact.created_at DESC`. -/
def contactPageOrder (a b : Contact) : Prop :=
  b.created_at ≤ a.created_at

instance : DecidableRel contactPageOrder := fun a b =>
  inferInstanceAs (Decidable (b.created_at ≤ a.created_at))

instance : IsTotal Contact contactPageOrder :=
  ⟨fun a b => le_total b.created_at a.created_at⟩

instance : IsTrans Contact contactPageOrder :=
  ⟨fun _ _ _ h1 h2 => le_trans h2 h1⟩

/-- `get_contacts` in `app/crud/contact.py`: filter, count the full filtered
set, then order by `created_at` descending and apply offset `skip` and
`limit`.  Returns `(page, total)`. -/
def get_contacts (contacts : List Contact) (skip limit : Nat)
    (status : Option ContactStatus) (search : Option String)
    (tags : Option (List String)) : List Contact × Nat :=
  let q := filteredContacts contacts status search tags
  let total := q.length
  (((q.insertionSort contactPageOrder).drop skip).take limit, total)

/-- Conjunctive filter pipeline of `get_proposals` (`app/crud/proposal.py`):
contact (`if contact_id:` - both None and 0 skip it), status, value range
(each bound applied when not None; a NULL `value` never satisfies a bound,
SQL three-valued logic). -/
def filteredProposals (proposals : List Proposal) (contact_id : Option Nat)
    (status : Option ProposalStatus) (min_value max_value : Option ℚ) :
    List Proposal :=
  let q := proposals
  let q := match contact_id with
    | some cid => if cid != 0 then q.filter (fun p => p.contact_id == cid) else q
    | none => q
  let q := match status with
    | some st => q.filter fun p => p.status == st
    | none => q
  let q := match min_value with
    | some mv => q.filter fun p => match p.value with
        | some v => decide (mv ≤ v)
        | none => false
    | none => q
  match max_value with
  | some mv => q.filter fun p => match p.value with
      | some v => decide (v ≤ mv)
      | none => false
  | none => q

/-- `ORDER BY Proposal.created_at DESC`. -/
def proposalPageOrder (a b : Proposal) : Prop :=
  b.created_at ≤ a.created_at

instance : DecidableRel proposalPageOrder := fun a b =>
  inferInstanceAs (Decidable (b.created_at ≤ a.created_at))

instance : IsTotal Proposal proposalPageOrder :=
  ⟨fun a b => le_total b.created_at a.created_at⟩

instance : IsTrans Proposal proposalPageOrder :=
  ⟨fun _ _ _ h1 h2 => le_trans h2 h1⟩

/-- `get_proposals` in `app/crud/proposal.py`: filter, count, order by
`created_at` descending, offset/limit.  Returns `(page, total)`. -/
def get_proposals (proposals : List Proposal) (skip limit : Nat)
    (contact_id : Option Nat) (status : Option ProposalStatus)
    (min_value max_value : Option ℚ) : List Proposal × Nat :=
  let q := filteredProposals proposals contact_id status min_value max_value
  let total := q.length
  (((q.insertionSort proposalPageOrder).drop skip).take limit, total)

/-- PostgreSQL sort rank of the native `actionpriority` enum: its declaration
order low < medium < high < urgent. -/
def priorityRank : ActionPriority → Nat
  | .low => 0
  | .medium => 1
  | .high => 2
  | .urgent => 3

/-- `ORDER BY due_at ASC` under PostgreSQL: NULLs sort last. -/
def dueLe : Option Int → Option Int → Prop
  | some s, some t => s ≤ t
  | some _, none => True
  | none, some _ => False
  | none, none => True

instance : DecidableRel dueLe := fun a b =>
  match a, b with
  | some s, some t => inferInstanceAs (Decidable (s ≤ t))
  | some _, none => inferInstanceAs (Decidable True)
  | none, some _ => inferInstanceAs (Decidable False)
  | none, none => inferInstanceAs (Decidable True)

/-- `ORDER BY Action.priority DESC, Action.due_at ASC` on PostgreSQL:
priority descending in enum declaration order (urgent first), ties broken by
due date ascending with NULL due dates last. -/
def actionPageOrder (a b : Action) : Prop :=
  priorityRank b.priority < priorityRank a.priority ∨
    (priorityRank a.priority = priorityRank b.priority ∧ dueLe a.due_at b.due_at)

instance : DecidableRel actionPageOrder := fun _ _ =>
  inferInstanceAs (Decidable (_ ∨ _))

theorem dueLe_total (x y : Option Int) : dueLe x y ∨ dueLe y x := by
  cases x <;> cases y <;> simp [dueLe] <;> exact le_total _ _

theorem dueLe_trans {x y z : Option Int} (h1 : dueLe x y) (h2 : dueLe y z) :
    dueLe x z := by
  cases x <;> cases y <;> cases z <;> simp_all [dueLe] <;> omega

instance : IsTotal Action actionPageOrder := by
  constructor
  intro a b
  rcases Nat.lt_trichotomy (priorityRank a.priority) (priorityRank b.priority) with h | h | h
  · exact Or.inr (Or.inl h)
  · rcases dueLe_total a.due_at b.due_at with hd | hd
    · exact Or.inl (Or.inr ⟨h, hd⟩)
    · exact Or.inr (Or.inr ⟨h.symm, hd⟩)
  · exact Or.inl (Or.inl h)

instance : IsTrans Action actionPageOrder := by
  constructor
  intro a b c hab hbc
  rcases hab with hab | ⟨hab, dab⟩
  · rcases hbc with hbc | ⟨hbc, _⟩
    · exact Or.inl (hbc.trans hab)
    · exact Or.inl (hbc ▸ hab)
  · rcases hbc with hbc | ⟨hbc, dbc⟩
    · exact Or.inl (hab ▸ hbc)
    · exact Or.inr ⟨hab.trans hbc, dueLe_trans dab dbc⟩

/-- Conjunctive filter pipeline of `get_actions` (`app/crud/action.py`):
contact, status, priority, action type, assignee (all skipped when falsy),
and `overdue_only` (restricts to pending actions whose due date is strictly
before `now`; a NULL due date never matches). -/
def filteredActions (actions : List Action) (now : Int) (contact_id : Option Nat)
    (status : Option ActionStatus) (priority : Option ActionPriority)
    (action_type : Option ActionType) (assigned_to : Option Nat)
    (overdue_only : Bool) : List Action :=
  let q := actions
  let q := match contact_id with
    | some cid => if cid != 0 then q.filter (fun a => a.contact_id == cid) else q
    | none => q
  let q := match status with
    | some st => q.filter fun a => a.status == st
    | none => q
  let q := match priority with
    | some pr => q.filter fun a => a.priority == pr
    | none => q
  let q := match action_type with
    | some ty => q.filter fun a => a.action_type == ty
    | none => q
  let q := match assigned_to with
    | some uid => if uid != 0 then q.filter (fun a => a.assigned_to == some uid) else q
    | none => q
  if overdue_only then
    q.filter fun a =>
      a.status == ActionStatus.pending &&
        (match a.due_at with | some d => decide (d < now) | none => false)
  else q

/-- `get_actions` in `app/crud/action.py`: filter, count the full filtered
set, then order by priority descending / due date ascending and apply
offset/limit.  Returns `(page, total)`. -/
def get_actions (actions : List Action) (now : Int) (skip limit : Nat)
    (contact_id : Option Nat) (status : Option ActionStatus)
    (priority : Option ActionPriority) (action_type : Option ActionType)
    (assigned_to : Option Nat) (overdue_only : Bool) : List Action × Nat :=
  let q := filteredActions actions now contact_id status priority action_type
    assigned_to overdue_only
  let total := q.length
  (((q.insertionSort actionPageOrder).drop skip).take limit, total)

/-! ## Sparse update payloads (pydantic `ContactUpdate` etc. with
`model_dump(exclude_unset=True)`)

The outer `Option` of every field records whether the caller supplied the
field at all; fields backed by nullable columns carry an inner `Option` so
that "explicitly set to NULL" stays distinct from "omitted".  None of the
update schemas exposes `contact_id`. -/

/-- `ContactUpdate` in `app/schemas/contact.py`. -/
structure ContactUpdate where
  first_name : Option String := none
  last_name : Option String := none
  email : Option (Option String) := none
  phone : Option (Option String) := none
  company : Option (Option String) := none
  job_title : Option (Option String) := none
  status : Option ContactStatus := none
  source : Option (Option String) := none
  owner_id : Option (Option Nat) := none
  tags : Option (List String) := none
  notes : Option (Option String) := none
  next_action : Option (Option Int) := none
deriving DecidableEq, Repr

/-- `InteractionUpdate` in `app/schemas/interaction.py`. -/
structure InteractionUpdate where
  type : Option InteractionType := none
  occurred_at : Option Int := none
  summary : Option String := none
  outcome : Option (Option String) := none
  created_by : Option (Option String) := none
deriving DecidableEq, Repr

/-- `ProposalUpdate` in `app/schemas/proposal.py`. -/
structure ProposalUpdate where
  title : Option String := none
  description : Option (Option String) := none
  value : Option (Option ℚ) := none
  status : Option ProposalStatus := none
  applied_at : Option (Option Int) := none
  expires_at : Option (Option Int) := none
deriving DecidableEq, Repr

/-- `ActionUpdate` in `app/schemas/action.py`. -/
structure ActionUpdate where
  title : Option String := none
  description : Option (Option String) := none
  status : Option ActionStatus := none
  priority : Option ActionPriority := none
  action_type : Option ActionType := none
  due_at : Option (Option Int) := none
  completed_at : Option (Option Int) := none
  assigned_to : Option (Option Nat) := none
  proposal_id : Option (Option Nat) := none
  interaction_id : Option (Option Nat) := none
deriving DecidableEq, Repr

/-- The `setattr` loop of `update_contact` (`app/crud/contact.py`): every
provided field overwrites the stored one; the `onupdate=func.now()` column
default refreshes `updated_at`. -/
def applyContactUpdate (now : Int) (c : Contact) (u : ContactUpdate) : Contact :=
  { c with
    first_name := u.first_name.getD c.first_name
    last_name := u.last_name.getD c.last_name
    email := u.email.getD c.email
    phone := u.phone.getD c.phone
    company := u.company.getD c.company
    job_title := u.job_title.getD c.job_title
    status := u.status.getD c.status
    source := u.source.getD c.source
    owner_id := u.owner_id.getD c.owner_id
    tags := u.tags.getD c.tags
    notes := u.notes.getD c.notes
    next_action := u.next_action.getD c.next_action
    updated_at := now }

/-- The `setattr` loop of `update_interaction` (`app/crud/interaction.py`). -/
def applyInteractionUpdate (now : Int) (i : Interaction) (u : InteractionUpdate) :
    Interaction :=
  { i with
    type := u.type.getD i.type
    occurred_at := u.occurred_at.getD i.occurred_at
    summary := u.summary.getD i.summary
    outcome := u.outcome.getD i.outcome
    created_by := u.created_by.getD i.created_by
    updated_at := now }

/-- The `setattr` loop of `update_proposal` (`app/crud/proposal.py`). -/
def applyProposalUpdate (now : Int) (p : Proposal) (u : ProposalUpdate) : Proposal :=
  { p with
    title := u.title.getD p.title
    description := u.description.getD p.description
    value := u.value.getD p.value
    status := u.status.getD p.status
    applied_at := u.applied_at.getD p.applied_at
    expires_at := u.expires_at.getD p.expires_at
    updated_at := now }

/-- `update_action` (`app/crud/action.py`), field application part: before
the `setattr` loop the code inserts `update_data["completed_at"] = now`
whenever the payload sets `status` to completed and the stored
`completed_at` is NULL - overriding even a `completed_at` the payload
itself carried.  Otherwise `completed_at` follows the ordinary sparse-update
rule. -/
def applyActionUpdate (now : Int) (a : Action) (u : ActionUpdate) : Action :=
  { a with
    title := u.title.getD a.title
    description := u.description.getD a.description
    status := u.status.getD a.status
    priority := u.priority.getD a.priority
    action_type := u.action_type.getD a.action_type
    due_at := u.due_at.getD a.due_at
    completed_at :=
      if u.status = some ActionStatus.completed ∧ a.completed_at = none then
        some now
      else u.completed_at.getD a.completed_at
    assigned_to := u.assigned_to.getD a.assigned_to
    proposal_id := u.proposal_id.getD a.proposal_id
    interaction_id := u.interaction_id.getD a.interaction_id
    updated_at := now }

/-! ## By-id access and deletion with cascades -/

/-- `get_contact` (`app/crud/contact.py`): first row with the given primary
key. -/
def get_contact (contacts : List Contact) (cid : Nat) : Option Contact :=
  contacts.find? fun c => c.id == cid

/-- `get_contact_by_email` (`app/crud/contact.py`): first row whose email
column equals the given string (a NULL email never matches). -/
def get_contact_by_email (contacts : List Contact) (email : String) :
    Option Contact :=
  contacts.find? fun c => c.email == some email

/-- `delete_contact` (`app/crud/contact.py`) together with the cascade rules
declared on the models: the contact row goes, all of its interactions,
proposals and actions go (`cascade="all, delete-orphan"` on `Contact`), and
any action referencing one of those deleted proposals or interactions goes
too (`ondelete="CASCADE"` foreign keys / cascades on `Proposal.actions` and
`Interaction.actions`).  Returns the new store and the "was deleted" flag. -/
def delete_contact (db : DB) (cid : Nat) : DB × Bool :=
  if db.contacts.any (fun c => c.id == cid) then
    let deadProposals := (db.proposals.filter fun p => p.contact_id == cid).map (·.id)
    let deadInteractions :=
      (db.interactions.filter fun i => i.contact_id == cid).map (·.id)
    ({ contacts := db.contacts.filter fun c => !(c.id == cid)
       interactions := db.interactions.filter fun i => !(i.contact_id == cid)
       proposals := db.proposals.filter fun p => !(p.contact_id == cid)
       actions := db.actions.filter fun a =>
         !(a.contact_id == cid
           || (match a.proposal_id with
               | some pid => deadProposals.contains pid
               | none => false)
           || (match a.interaction_id with
               | some iid => deadInteractions.contains iid
               | none => false)) },
     true)
  else (db, false)

/-- `delete_proposal` (`app/crud/proposal.py`) with the cascade on
`Proposal.actions`: the proposal row goes and so does every action whose
`proposal_id` references it; contacts and interactions are untouched. -/
def delete_proposal (db : DB) (pid : Nat) : DB × Bool :=
  if db.proposals.any (fun p => p.id == pid) then
    ({ db with
       proposals := db.proposals.filter fun p => !(p.id == pid)
       actions := db.actions.filter fun a => !(a.proposal_id == some pid) },
     true)
  else (db, false)

/-- `delete_interaction` (`app/crud/interaction.py`) with the cascade on
`Interaction.actions`. -/
def delete_interaction (db : DB) (iid : Nat) : DB × Bool :=
  if db.interactions.any (fun i => i.id == iid) then
    ({ db with
       interactions := db.interactions.filter fun i => !(i.id == iid)
       actions := db.actions.filter fun a => !(a.interaction_id == some iid) },
     true)
  else (db, false)

/-! ## Contact create/update routes (`app/api/contacts.py`) -/

/-- `ContactCreate` in `app/schemas/contact.py` (all optional fields
defaulted as there). -/
structure ContactCreate where
  first_name : String
  last_name : String
  email : Option String := none
  phone : Option String := none
  company : Option String := none
  job_title : Option String := none
  status : ContactStatus := .lead
  source : Option String := none
  owner_id : Option Nat := none
  tags : List String := []
  notes : Option String := none
  next_action : Option Int := none
deriving DecidableEq, Repr

/-- Distinguishable failure signals of the route layer: HTTP 404 resp. the
email-collision HTTP 400 ("Email already registered"), the spec's
`NotFound` / `Conflict` conditions. -/
inductive ApiError
  | notFound
  | conflict
deriving DecidableEq, Repr

/-- `create_contact` (`app/crud/contact.py`): materialise the payload as a
row with a fresh id and server-assigned timestamps (`created_at` and
`updated_at` both from `func.now()`). -/
def insertContact (p : ContactCreate) (newId : Nat) (now : Int) : Contact :=
  { id := newId
    first_name := p.first_name
    last_name := p.last_name
    email := p.email
    phone := p.phone
    company := p.company
    job_title := p.job_title
    status := p.status
    source := p.source
    owner_id := p.owner_id
    tags := p.tags
    notes := p.notes
    next_action := p.next_action
    created_at := now
    updated_at := now }

/-- POST `/contacts/` (`app/api/contacts.py` `create_contact`): when the
payload carries a (truthy, i.e. non-empty) email and `get_contact_by_email`
finds an existing row, fail with the conflict signal before touching the
store; otherwise insert.  Returns the new store and the created row. -/
def api_create_contact (contacts : List Contact) (p : ContactCreate)
    (newId : Nat) (now : Int) : Except ApiError (List Contact × Contact) :=
  let dup := match p.email with
    | some e => if e.isEmpty then false else (get_contact_by_email contacts e).isSome
    | none => false
  if dup then .error .conflict
  else
    let c := insertContact p newId now
    .ok (contacts ++ [c], c)

/-- `update_contact` (`app/crud/contact.py`): `None` when no row has the id,
otherwise the store with the row rewritten by the sparse payload (ids are
primary keys, so the rewrite touches one row). -/
def update_contact (contacts : List Contact) (cid : Nat) (u : ContactUpdate)
    (now : Int) : Option (List Contact × Contact) :=
  match get_contact contacts cid with
  | none => none
  | some c =>
    some (contacts.map fun x => if x.id == cid then applyContactUpdate now x u else x,
      applyContactUpdate now c u)

/-- PUT `/contacts/{id}` (`app/api/contacts.py` `update_contact`): when the
payload carries a truthy email held by a row with a *different* id, fail
with the conflict signal; otherwise defer to the CRUD update, mapping a
missing id to the not-found signal. -/
def api_update_contact (contacts : List Contact) (cid : Nat) (u : ContactUpdate)
    (now : Int) : Except ApiError (List Contact × Contact) :=
  let dup := match u.email with
    | some (some e) =>
      if e.isEmpty then false
      else match get_contact_by_email contacts e with
        | some existing => existing.id != cid
        | none => false
    | _ => false
  if dup then .error .conflict
  else match update_contact contacts cid u now with
    | none => .error .notFound
    | some r => .ok r

/-! ## Aggregation (`app/crud/proposal.py`, `app/crud/action.py`,
`app/api/proposals.py`) -/

/-- The six declared proposal statuses, in declaration order (the order
`for status in ProposalStatus` iterates them). -/
def allProposalStatuses : List ProposalStatus :=
  [.draft, .submitted, .won, .lost, .ignored, .expired]

/-- The optional `if contact_id:` scope shared by the grouped proposal
queries (None and 0 are both falsy, so both leave the set unscoped). -/
def scopedProposals (ps : List Proposal) (contact_id : Option Nat) :
    List Proposal :=
  match contact_id with
  | some cid => if cid != 0 then ps.filter (fun p => p.contact_id == cid) else ps
  | none => ps

/-- `count_proposals_by_status` (`app/crud/proposal.py`): GROUP BY status,
COUNT(id) - one entry per status value that actually occurs in the scoped
set.  SQL leaves the group order unspecified; the mapping is keyed, so it is
realised here in status declaration order. -/
def count_proposals_by_status (ps : List Proposal) (contact_id : Option Nat) :
    List (ProposalStatus × Nat) :=
  let sp := scopedProposals ps contact_id
  (allProposalStatuses.filter fun s => sp.any fun p => p.status == s).map
    fun s => (s, (sp.filter fun p => p.status == s).length)

/-- SQL `SUM(value)` over a group: NULL values contribute nothing, and the
code maps an all-NULL (hence NULL) sum to `0.0`. -/
def proposalValueSum (ps : List Proposal) : ℚ :=
  ps.foldr (fun p acc => p.value.getD 0 + acc) 0

/-- `get_total_value_by_status` (`app/crud/proposal.py`): GROUP BY status,
SUM(value) - one entry per status value occurring in the scoped set, with
`float(total) if total else 0.0` applied to each sum. -/
def get_total_value_by_status (ps : List Proposal) (contact_id : Option Nat) :
    List (ProposalStatus × ℚ) :=
  let sp := scopedProposals ps contact_id
  (allProposalStatuses.filter fun s => sp.any fun p => p.status == s).map
    fun s => (s, proposalValueSum (sp.filter fun p => p.status == s))

/-- Python `dict.get(key, default)` over an association list. -/
def lookupD {κ β : Type} [BEq κ] (m : List (κ × β)) (k : κ) (d : β) : β :=
  match m.find? (fun kv => kv.1 == k) with
  | some kv => kv.2
  | none => d

/-- Shape of the response of GET `/proposals/stats/by-status`. -/
structure ProposalStats where
  total_count : Nat
  total_value : ℚ
  by_status : List (ProposalStatus × Nat × ℚ)
deriving DecidableEq, Repr

/-- `get_proposal_stats` (`app/api/proposals.py`): verify the (truthy)
contact scope exists, then merge count-by-status and sum-by-status into one
report over *all* declared statuses, defaulting missing groups to count 0 /
value 0.0; `total_count` and `total_value` are the sums of the two grouped
mappings' values. -/
def get_proposal_stats (db : DB) (contact_id : Option Nat) :
    Except ApiError ProposalStats :=
  let scopeMissing := match contact_id with
    | some cid => if cid != 0 then (get_contact db.contacts cid).isNone else false
    | none => false
  if scopeMissing then .error .notFound
  else
    let counts := count_proposals_by_status db.proposals contact_id
    let totals := get_total_value_by_status db.proposals contact_id
    .ok { total_count := (counts.map (·.2)).sum
          total_value := (totals.map (·.2)).sum
          by_status := allProposalStatuses.map fun s =>
            (s, lookupD counts s 0, lookupD totals s 0) }

/-- The optional `if contact_id:` scope of the grouped action queries. -/
def scopedActions (acts : List Action) (contact_id : Option Nat) :
    List Action :=
  match contact_id with
  | some cid => if cid != 0 then acts.filter (fun a => a.contact_id == cid) else acts
  | none => acts

/-- Distinct elements of a list, keeping first occurrences in order (the
group keys of a GROUP BY, in row order). -/
def firstOccurrences {κ : Type} [BEq κ] : List κ → List κ
  | [] => []
  | k :: ks => k :: (firstOccurrences ks).filter fun k2 => !(k2 == k)

/-- Python dict construction from a row list: a later key overwrites an
earlier one. -/
def dictOfRows {κ β : Type} [BEq κ] (rows : List (κ × β)) : List (κ × β) :=
  rows.foldl (fun m kv => (m.filter fun kv2 => !(kv2.1 == kv.1)) ++ [kv]) []

/-- `count_actions_by_type` (`app/crud/action.py`) exactly as written: the
SELECT list is `(Action.status, func.count(Action.id))` while the GROUP BY
is `Action.action_type`.  PostgreSQL - the configured engine - rejects this
query outright (`Action.status` is neither grouped nor aggregated); a
permissive engine returns, per action_type group, the bare status column of
some row of the group next to the group's count.  Modelled with the first
row of each group, the groups in row order; the final dict comprehension
then keys the mapping by those *statuses*. -/
def count_actions_by_type (acts : List Action) (contact_id : Option Nat) :
    List (ActionStatus × Nat) :=
  let sa := scopedActions acts contact_id
  let keys := firstOccurrences (sa.map (·.action_type))
  dictOfRows (keys.map fun ty =>
    let grp := sa.filter fun a => a.action_type == ty
    ((grp.head?.map (·.status)).getD ActionStatus.pending, grp.length))

/-- Modelled from the spec ("Count actions grouped by ... type", with no
status filter) and from the repository's own test
`test_count_actions_by_type`: counts keyed by the `action_type` values that
occur in the scoped set.  This is what `count_actions_by_type` was meant to
compute. -/
def count_actions_by_type_expected (acts : List Action) (contact_id : Option Nat) :
    List (ActionType × Nat) :=
  let sa := scopedActions acts contact_id
  (firstOccurrences (sa.map (·.action_type))).map fun ty =>
    (ty, (sa.filter fun a => a.action_type == ty).length)

/-! ## General lemmas -/

/-- Concatenating `k` consecutive pages of size `limit` yields the first
`k * limit` elements. -/
theorem flatten_pages {α : Type} (l : List α) (limit : Nat) :
    ∀ k, ((List.range k).map fun i => (l.drop (i * limit)).take limit).flatten
      = l.take (k * limit)
  | 0 => by simp
  | k + 1 => by
    rw [List.range_succ, List.map_append, List.flatten_append,
      flatten_pages l limit k]
    have hmul : (k + 1) * limit = k * limit + limit := by ring
    rw [hmul, List.take_add l (k * limit) limit]
    simp

/-! ## Example rows used by witnesses and counterexamples -/

def exContactA : Contact :=
  { id := 1, first_name := "Ada", last_name := "Lovelace",
    email := some "ada@example.com", tags := ["vip", "tech"], created_at := 10 }

def exContactB : Contact :=
  { id := 2, first_name := "Grace", last_name := "Hopper",
    email := some "grace@example.com", tags := ["vip"], created_at := 20 }

def exContactC : Contact :=
  { id := 3, first_name := "Alan", last_name := "Turing", created_at := 30 }

def exProposalA : Proposal :=
  { id := 1, contact_id := 1, title := "Website", value := some 5000,
    status := .draft, created_at := 5 }

/-- C1: for the entity list queries `get_contacts` and `get_proposals`, with
any filters and any `skip ≥ 0`, `limit ≥ 1`: the returned `total` is the size
of the full filtered set whatever `skip` and `limit` are, and concatenating
the pages at `skip = 0, limit, 2·limit, …` (in the fixed `created_at`
descending order) is exactly the sorted filtered set, a permutation of the
filtered set - no duplicates, no omissions. -/
theorem list_pagination_exhaustive
    (contacts : List Contact) (cst : Option ContactStatus) (cse : Option String)
    (ctg : Option (List String)) (proposals : List Proposal)
    (pcid : Option Nat) (pst : Option ProposalStatus) (pmin pmax : Option ℚ)
    (skip limit k : Nat) (hlim : 1 ≤ limit)
    (hkC : (filteredContacts contacts cst cse ctg).length ≤ k * limit)
    (hkP : (filteredProposals proposals pcid pst pmin pmax).length ≤ k * limit) :
    (get_contacts contacts skip limit cst cse ctg).2
        = (filteredContacts contacts cst cse ctg).length
      ∧ (get_proposals proposals skip limit pcid pst pmin pmax).2
        = (filteredProposals proposals pcid pst pmin pmax).length
      ∧ ((List.range k).map fun i =>
            (get_contacts contacts (i * limit) limit cst cse ctg).1).flatten
        = (filteredContacts contacts cst cse ctg).insertionSort contactPageOrder
      ∧ ((List.range k).map fun i =>
            (get_proposals proposals (i * limit) limit pcid pst pmin pmax).1).flatten
        = (filteredProposals proposals pcid pst pmin pmax).insertionSort proposalPageOrder
      ∧ ((filteredContacts contacts cst cse ctg).insertionSort contactPageOrder).Perm
          (filteredContacts contacts cst cse ctg)
      ∧ ((filteredProposals proposals pcid pst pmin pmax).insertionSort
          proposalPageOrder).Perm
          (filteredProposals proposals pcid pst pmin pmax) := by
  refine ⟨rfl, rfl, ?_, ?_, List.perm_insertionSort _ _, List.perm_insertionSort _ _⟩
  · calc ((List.range k).map fun i =>
            (get_contacts contacts (i * limit) limit cst cse ctg).1).flatten
        = ((List.range k).map fun i =>
            (((filteredContacts contacts cst cse ctg).insertionSort
              contactPageOrder).drop (i * limit)).take limit).flatten := rfl
      _ = ((filteredContacts contacts cst cse ctg).insertionSort
            contactPageOrder).take (k * limit) := flatten_pages _ limit k
      _ = (filteredContacts contacts cst cse ctg).insertionSort contactPageOrder :=
            List.take_of_length_le (by rw [List.length_insertionSort]; exact hkC)
  · calc ((List.range k).map fun i =>
            (get_proposals proposals (i * limit) limit pcid pst pmin pmax).1).flatten
        = ((List.range k).map fun i =>
            (((filteredProposals proposals pcid pst pmin pmax).insertionSort
              proposalPageOrder).drop (i * limit)).take limit).flatten := rfl
      _ = ((filteredProposals proposals pcid pst pmin pmax).insertionSort
            proposalPageOrder).take (k * limit) := flatten_pages _ limit k
      _ = (filteredProposals proposals pcid pst pmin pmax).insertionSort
            proposalPageOrder :=
            List.take_of_length_le (by rw [List.length_insertionSort]; exact hkP)

/-- Witness for C1 at a concrete store: two contacts, one proposal,
`skip = 1`, `limit = 1`, three pages. -/
theorem list_pagination_exhaustive_witness :
    (get_contacts [exContactA, exContactB] 1 1 none none none).2
        = (filteredContacts [exContactA, exContactB] none none none).length
      ∧ (get_proposals [exProposalA] 1 1 none none none none).2
        = (filteredProposals [exProposalA] none none none none).length
      ∧ ((List.range 3).map fun i =>
            (get_contacts [exContactA, exContactB] (i * 1) 1 none none none).1).flatten
        = (filteredContacts [exContactA, exContactB] none none none).insertionSort
            contactPageOrder
      ∧ ((List.range 3).map fun i =>
            (get_proposals [exProposalA] (i * 1) 1 none none none none).1).flatten
        = (filteredProposals [exProposalA] none none none none).insertionSort
            proposalPageOrder
      ∧ ((filteredContacts [exContactA, exContactB] none none none).insertionSort
          contactPageOrder).Perm
          (filteredContacts [exContactA, exContactB] none none none)
      ∧ ((filteredProposals [exProposalA] none none none none).insertionSort
          proposalPageOrder).Perm
          (filteredProposals [exProposalA] none none none none) :=
  list_pagination_exhaustive [exContactA, exContactB] none none none
    [exProposalA] none none none none 1 1 3 (by decide) (by decide) (by decide)

/-- C6: every page returned by the Action list query is sorted by
`actionPageOrder`: priority descending in the domain order
urgent > high > medium > low (the PostgreSQL enum declaration order), ties
broken by due date ascending with NULL due dates after every non-NULL one. -/
theorem actions_page_sorted (actions : List Action) (now : Int)
    (skip limit : Nat) (contact_id : Option Nat) (status : Option ActionStatus)
    (priority : Option ActionPriority) (action_type : Option ActionType)
    (assigned_to : Option Nat) (overdue_only : Bool) :
    ((get_actions actions now skip limit contact_id status priority action_type
        assigned_to overdue_only).1).Sorted actionPageOrder := by
  have hs := List.sorted_insertionSort actionPageOrder
    (filteredActions actions now contact_id status priority action_type
      assigned_to overdue_only)
  exact hs.sublist ((List.take_sublist _ _).trans (List.drop_sublist _ _))

def exActionPending : Action :=
  { id := 1, contact_id := 1, title := "Call back", status := .pending }

def exActionDone : Action :=
  { id := 2, contact_id := 1, title := "Send estimate", status := .completed,
    completed_at := some 50 }

/-- The payload `{"status": "completed"}` - nothing else provided. -/
def completeOnly : ActionUpdate := { status := some .completed }

def exEmptyContactUpdate : ContactUpdate := {}

def exEmptyActionUpdate : ActionUpdate := {}

/-- C2 counterexample: the claim "every field not present in the payload has
the value it had before the update" fails on `update_action` - the payload
`{"status": "completed"}` does not carry `completed_at`, yet updating a
pending action with NULL `completed_at` changes `completed_at` (the
auto-stamp). -/
theorem partial_update_frame_cex :
    completeOnly.completed_at = none ∧
    (applyActionUpdate 100 exActionPending completeOnly).completed_at
      ≠ exActionPending.completed_at := by
  exact ⟨rfl, by decide⟩

/-- C2 (amended): partial update changes only the fields explicitly provided
in the payload - every payload-addressable field omitted from the payload
keeps its prior value and is never treated as "set to null" - except that
the server refreshes `updated_at` on every update, and Action's
`completed_at` is additionally auto-stamped when the payload sets `status`
to completed while the stored `completed_at` is null. -/
theorem partial_update_frame (now : Int) (c : Contact) (u : ContactUpdate)
    (a : Action) (v : ActionUpdate) :
    (u.first_name = none → (applyContactUpdate now c u).first_name = c.first_name)
  ∧ (u.last_name = none → (applyContactUpdate now c u).last_name = c.last_name)
  ∧ (u.email = none → (applyContactUpdate now c u).email = c.email)
  ∧ (u.phone = none → (applyContactUpdate now c u).phone = c.phone)
  ∧ (u.company = none → (applyContactUpdate now c u).company = c.company)
  ∧ (u.job_title = none → (applyContactUpdate now c u).job_title = c.job_title)
  ∧ (u.status = none → (applyContactUpdate now c u).status = c.status)
  ∧ (u.source = none → (applyContactUpdate now c u).source = c.source)
  ∧ (u.owner_id = none → (applyContactUpdate now c u).owner_id = c.owner_id)
  ∧ (u.tags = none → (applyContactUpdate now c u).tags = c.tags)
  ∧ (u.notes = none → (applyContactUpdate now c u).notes = c.notes)
  ∧ (u.next_action = none → (applyContactUpdate now c u).next_action = c.next_action)
  ∧ (v.title = none → (applyActionUpdate now a v).title = a.title)
  ∧ (v.description = none → (applyActionUpdate now a v).description = a.description)
  ∧ (v.status = none → (applyActionUpdate now a v).status = a.status)
  ∧ (v.priority = none → (applyActionUpdate now a v).priority = a.priority)
  ∧ (v.action_type = none → (applyActionUpdate now a v).action_type = a.action_type)
  ∧ (v.due_at = none → (applyActionUpdate now a v).due_at = a.due_at)
  ∧ (v.assigned_to = none → (applyActionUpdate now a v).assigned_to = a.assigned_to)
  ∧ (v.proposal_id = none → (applyActionUpdate now a v).proposal_id = a.proposal_id)
  ∧ (v.interaction_id = none →
      (applyActionUpdate now a v).interaction_id = a.interaction_id)
  ∧ (v.completed_at = none →
      ¬(v.status = some ActionStatus.completed ∧ a.completed_at = none) →
      (applyActionUpdate now a v).completed_at = a.completed_at) := by
  refine ⟨?_, ?_, ?_, ?_, ?_, ?_, ?_, ?_, ?_, ?_, ?_, ?_, ?_, ?_, ?_, ?_, ?_,
    ?_, ?_, ?_, ?_, ?_⟩ <;>
    first
      | (intro h hn
         have hca : (applyActionUpdate now a v).completed_at =
             if v.status = some ActionStatus.completed ∧ a.completed_at = none
             then some now else v.completed_at.getD a.completed_at := rfl
         rw [hca, if_neg hn, h]
         rfl)
      | (intro h; simp [applyContactUpdate, applyActionUpdate, h]; done)

/-- Witness for C2 at concrete rows: the empty payload leaves every field of
a contact and of an already-completed action unchanged. -/
theorem partial_update_frame_witness :
    ((applyContactUpdate 7 exContactA exEmptyContactUpdate).first_name
      = exContactA.first_name)
  ∧ ((applyContactUpdate 7 exContactA exEmptyContactUpdate).last_name
      = exContactA.last_name)
  ∧ ((applyContactUpdate 7 exContactA exEmptyContactUpdate).email = exContactA.email)
  ∧ ((applyContactUpdate 7 exContactA exEmptyContactUpdate).phone = exContactA.phone)
  ∧ ((applyContactUpdate 7 exContactA exEmptyContactUpdate).company
      = exContactA.company)
  ∧ ((applyContactUpdate 7 exContactA exEmptyContactUpdate).job_title
      = exContactA.job_title)
  ∧ ((applyContactUpdate 7 exContactA exEmptyContactUpdate).status = exContactA.status)
  ∧ ((applyContactUpdate 7 exContactA exEmptyContactUpdate).source = exContactA.source)
  ∧ ((applyContactUpdate 7 exContactA exEmptyContactUpdate).owner_id
      = exContactA.owner_id)
  ∧ ((applyContactUpdate 7 exContactA exEmptyContactUpdate).tags = exContactA.tags)
  ∧ ((applyContactUpdate 7 exContactA exEmptyContactUpdate).notes = exContactA.notes)
  ∧ ((applyContactUpdate 7 exContactA exEmptyContactUpdate).next_action
      = exContactA.next_action)
  ∧ ((applyActionUpdate 7 exActionDone exEmptyActionUpdate).title = exActionDone.title)
  ∧ ((applyActionUpdate 7 exActionDone exEmptyActionUpdate).description
      = exActionDone.description)
  ∧ ((applyActionUpdate 7 exActionDone exEmptyActionUpdate).status
      = exActionDone.status)
  ∧ ((applyActionUpdate 7 exActionDone exEmptyActionUpdate).priority
      = exActionDone.priority)
  ∧ ((applyActionUpdate 7 exActionDone exEmptyActionUpdate).action_type
      = exActionDone.action_type)
  ∧ ((applyActionUpdate 7 exActionDone exEmptyActionUpdate).due_at
      = exActionDone.due_at)
  ∧ ((applyActionUpdate 7 exActionDone exEmptyActionUpdate).assigned_to
      = exActionDone.assigned_to)
  ∧ ((applyActionUpdate 7 exActionDone exEmptyActionUpdate).proposal_id
      = exActionDone.proposal_id)
  ∧ ((applyActionUpdate 7 exActionDone exEmptyActionUpdate).interaction_id
      = exActionDone.interaction_id)
  ∧ ((applyActionUpdate 7 exActionDone exEmptyActionUpdate).completed_at
      = exActionDone.completed_at) := by
  obtain ⟨h1, h2, h3, h4, h5, h6, h7, h8, h9, h10, h11, h12, h13, h14, h15,
    h16, h17, h18, h19, h20, h21, h22⟩ :=
    partial_update_frame 7 exContactA exEmptyContactUpdate exActionDone
      exEmptyActionUpdate
  exact ⟨h1 rfl, h2 rfl, h3 rfl, h4 rfl, h5 rfl, h6 rfl, h7 rfl, h8 rfl,
    h9 rfl, h10 rfl, h11 rfl, h12 rfl, h13 rfl, h14 rfl, h15 rfl, h16 rfl,
    h17 rfl, h18 rfl, h19 rfl, h20 rfl, h21 rfl, h22 rfl (by decide)⟩

/-- C3: an update whose payload sets `status` to completed stamps
`completed_at` with the current time when the stored `completed_at` is null,
and - as long as the payload does not itself carry a `completed_at` value -
leaves an already-set `completed_at` untouched: the stamp happens
automatically at most once. -/
theorem completed_at_stamped_once (now : Int) (a : Action) (u : ActionUpdate)
    (hst : u.status = some ActionStatus.completed) :
    (a.completed_at = none → (applyActionUpdate now a u).completed_at = some now)
  ∧ (∀ t, a.completed_at = some t → u.completed_at = none →
      (applyActionUpdate now a u).completed_at = some t) := by
  constructor
  · intro h0
    simp [applyActionUpdate, hst, h0]
  · intro t ht hu
    simp [applyActionUpdate, ht, hu]

/-- Witness for C3: completing a pending action stamps time 100; repeating
the completion payload on the already-completed action keeps the original
stamp 50. -/
theorem completed_at_stamped_once_witness :
    (applyActionUpdate 100 exActionPending completeOnly).completed_at = some 100
  ∧ (applyActionUpdate 100 exActionDone completeOnly).completed_at = some 50 :=
  ⟨(completed_at_stamped_once 100 exActionPending completeOnly rfl).1 rfl,
   (completed_at_stamped_once 100 exActionDone completeOnly rfl).2 50 rfl rfl⟩

/-- C4: deleting an existing Contact removes it together with every
Interaction, Proposal and Action whose `contact_id` references it; deleting
an existing Proposal removes every Action whose `proposal_id` references it
while leaving contacts and interactions untouched, and symmetrically for
deleting an Interaction. -/
theorem cascade_delete (db : DB) (cid pid iid : Nat)
    (hc : ∃ c ∈ db.contacts, c.id = cid)
    (hp : ∃ p ∈ db.proposals, p.id = pid)
    (hi : ∃ i ∈ db.interactions, i.id = iid) :
    (∀ c ∈ ((delete_contact db cid).1).contacts, c.id ≠ cid)
  ∧ (∀ i ∈ ((delete_contact db cid).1).interactions, i.contact_id ≠ cid)
  ∧ (∀ p ∈ ((delete_contact db cid).1).proposals, p.contact_id ≠ cid)
  ∧ (∀ a ∈ ((delete_contact db cid).1).actions, a.contact_id ≠ cid)
  ∧ (delete_contact db cid).2 = true
  ∧ (∀ a ∈ ((delete_proposal db pid).1).actions, a.proposal_id ≠ some pid)
  ∧ ((delete_proposal db pid).1).contacts = db.contacts
  ∧ ((delete_proposal db pid).1).interactions = db.interactions
  ∧ (∀ a ∈ ((delete_interaction db iid).1).actions, a.interaction_id ≠ some iid)
  ∧ ((delete_interaction db iid).1).contacts = db.contacts
  ∧ ((delete_interaction db iid).1).proposals = db.proposals := by
  have hcany : db.contacts.any (fun c => c.id == cid) = true := by
    rw [List.any_eq_true]
    obtain ⟨c, hcm, hce⟩ := hc
    exact ⟨c, hcm, by simp [hce]⟩
  have hpany : db.proposals.any (fun p => p.id == pid) = true := by
    rw [List.any_eq_true]
    obtain ⟨p, hpm, hpe⟩ := hp
    exact ⟨p, hpm, by simp [hpe]⟩
  have hiany : db.interactions.any (fun i => i.id == iid) = true := by
    rw [List.any_eq_true]
    obtain ⟨i, him, hie⟩ := hi
    exact ⟨i, him, by simp [hie]⟩
  refine ⟨?_, ?_, ?_, ?_, ?_, ?_, ?_, ?_, ?_, ?_, ?_⟩ <;>
    simp [delete_contact, delete_proposal, delete_interaction,
      hcany, hpany, hiany, List.mem_filter]
  intro a _ hcontact _ _
  exact hcontact

def exInteraction1 : Interaction :=
  { id := 1, contact_id := 1, summary := "Intro call", occurred_at := 1 }

def exInteraction2 : Interaction :=
  { id := 2, contact_id := 1, summary := "Follow-up email", occurred_at := 2 }

/-- An action referencing both its contact and the proposal. -/
def exActionLinked : Action :=
  { id := 3, contact_id := 1, proposal_id := some 1, interaction_id := some 1,
    title := "Chase proposal" }

/-- The store of spec property 7: one contact owning two interactions, one
proposal and one action. -/
def exDB : DB :=
  { contacts := [exContactA]
    interactions := [exInteraction1, exInteraction2]
    proposals := [exProposalA]
    actions := [exActionLinked] }

/-- Witness for C4 on the concrete scenario store. -/
theorem cascade_delete_witness :
    (∀ c ∈ ((delete_contact exDB 1).1).contacts, c.id ≠ 1)
  ∧ (∀ i ∈ ((delete_contact exDB 1).1).interactions, i.contact_id ≠ 1)
  ∧ (∀ p ∈ ((delete_contact exDB 1).1).proposals, p.contact_id ≠ 1)
  ∧ (∀ a ∈ ((delete_contact exDB 1).1).actions, a.contact_id ≠ 1)
  ∧ (delete_contact exDB 1).2 = true
  ∧ (∀ a ∈ ((delete_proposal exDB 1).1).actions, a.proposal_id ≠ some 1)
  ∧ ((delete_proposal exDB 1).1).contacts = exDB.contacts
  ∧ ((delete_proposal exDB 1).1).interactions = exDB.interactions
  ∧ (∀ a ∈ ((delete_interaction exDB 1).1).actions, a.interaction_id ≠ some 1)
  ∧ ((delete_interaction exDB 1).1).contacts = exDB.contacts
  ∧ ((delete_interaction exDB 1).1).proposals = exDB.proposals :=
  cascade_delete exDB 1 1 1 (by decide) (by decide) (by decide)

/-- A non-empty string is not `isEmpty` (Python truthiness of a valid
email). -/
theorem isEmpty_false_of_ne {e : String} (h : e ≠ "") : e.isEmpty = false := by
  cases he : e.isEmpty
  · rfl
  · exact absurd ((String.isEmpty_iff e).mp he) h

/-- C5: creating a contact whose (valid, non-empty) email is already held by
an existing contact fails with the Conflict signal and performs no insert;
updating a contact's email to a value held only by *different* contacts
fails with Conflict; updating a contact to its own current email succeeds;
and a creation without an email, or with an email no stored contact holds,
never conflicts. -/
theorem email_uniqueness :
    (∀ (contacts : List Contact) (p : ContactCreate) (newId : Nat) (now : Int)
        (e : String), p.email = some e → e ≠ "" →
        (∃ c ∈ contacts, c.email = some e) →
        api_create_contact contacts p newId now = .error .conflict)
  ∧ (∀ (contacts : List Contact) (cid : Nat) (u : ContactUpdate) (now : Int)
        (e : String), u.email = some (some e) → e ≠ "" →
        (∃ c ∈ contacts, c.email = some e) →
        (∀ c ∈ contacts, c.email = some e → c.id ≠ cid) →
        api_update_contact contacts cid u now = .error .conflict)
  ∧ (∀ (contacts : List Contact) (cid : Nat) (u : ContactUpdate) (now : Int)
        (c : Contact) (e : String), c ∈ contacts → c.id = cid →
        c.email = some e → u.email = some (some e) →
        (∀ c2 ∈ contacts, c2.email = some e → c2.id = cid) →
        (api_update_contact contacts cid u now).isOk = true)
  ∧ (∀ (contacts : List Contact) (p : ContactCreate) (newId : Nat) (now : Int),
        p.email = none → (api_create_contact contacts p newId now).isOk = true)
  ∧ (∀ (contacts : List Contact) (p : ContactCreate) (newId : Nat) (now : Int)
        (e : String), p.email = some e →
        (∀ c ∈ contacts, c.email ≠ some e) →
        (api_create_contact contacts p newId now).isOk = true) := by
  refine ⟨?_, ?_, ?_, ?_, ?_⟩
  · intro contacts p newId now e hpe hne hex
    have hsome : (get_contact_by_email contacts e).isSome = true := by
      rw [get_contact_by_email, List.find?_isSome]
      obtain ⟨c, hcm, hce⟩ := hex
      exact ⟨c, hcm, by simp [hce]⟩
    simp [api_create_contact, hpe, isEmpty_false_of_ne hne, hsome]
  · intro contacts cid u now e hue hne hex hdiff
    obtain ⟨c', hfind⟩ := Option.isSome_iff_exists.mp (show
        (get_contact_by_email contacts e).isSome = true by
      rw [get_contact_by_email, List.find?_isSome]
      obtain ⟨c, hcm, hce⟩ := hex
      exact ⟨c, hcm, by simp [hce]⟩)
    have hc'mem : c' ∈ contacts := List.mem_of_find?_eq_some hfind
    have hc'email : c'.email = some e := by
      have := List.find?_some hfind
      simpa using this
    have hc'id : (c'.id != cid) = true := by
      simp [hdiff c' hc'mem hc'email]
    simp [api_update_contact, hue, isEmpty_false_of_ne hne,
      get_contact_by_email] at hfind ⊢
    rw [hfind]
    simp [hc'id]
  · intro contacts cid u now c e hcm hcid hce hue huniq
    obtain ⟨c', hfind⟩ := Option.isSome_iff_exists.mp (show
        (get_contact_by_email contacts e).isSome = true by
      rw [get_contact_by_email, List.find?_isSome]
      exact ⟨c, hcm, by simp [hce]⟩)
    have hc'mem : c' ∈ contacts := List.mem_of_find?_eq_some hfind
    have hc'email : c'.email = some e := by
      have := List.find?_some hfind
      simpa using this
    have hc'id : (c'.id != cid) = false := by
      simp [huniq c' hc'mem hc'email]
    obtain ⟨c'', hfind2⟩ := Option.isSome_iff_exists.mp (show
        (get_contact contacts cid).isSome = true by
      rw [get_contact, List.find?_isSome]
      exact ⟨c, hcm, by simp [hcid]⟩)
    simp [api_update_contact, hue, get_contact_by_email] at hfind ⊢
    rw [hfind]
    simp [hc'id, update_contact, hfind2, Except.isOk, Except.toBool]
  · intro contacts p newId now hpe
    simp [api_create_contact, hpe, Except.isOk, Except.toBool]
  · intro contacts p newId now e hpe hnone
    have hfind : get_contact_by_email contacts e = none := by
      rw [get_contact_by_email, List.find?_eq_none]
      intro c hcm
      simp [hnone c hcm]
    simp [api_create_contact, hpe, hfind, Except.isOk, Except.toBool]

def exCreateDup : ContactCreate :=
  { first_name := "New", last_name := "Person", email := some "ada@example.com" }

def exCreateNoEmail : ContactCreate :=
  { first_name := "No", last_name := "Mail" }

def exCreateFresh : ContactCreate :=
  { first_name := "Fresh", last_name := "Mail", email := some "fresh@example.com" }

/-- The payload `{"email": "ada@example.com"}`. -/
def exEmailToAda : ContactUpdate :=
  { email := some (some "ada@example.com") }

/-- Witness for C5 on concrete stores: duplicate-email create conflicts,
stealing another contact's email conflicts, re-setting one's own email
succeeds, and e-mail-less or fresh-email creates succeed. -/
theorem email_uniqueness_witness :
    api_create_contact [exContactA] exCreateDup 9 50 = .error .conflict
  ∧ api_update_contact [exContactA, exContactB] 2 exEmailToAda 50 = .error .conflict
  ∧ (api_update_contact [exContactA, exContactB] 1 exEmailToAda 50).isOk = true
  ∧ (api_create_contact [exContactA] exCreateNoEmail 9 50).isOk = true
  ∧ (api_create_contact [exContactA] exCreateFresh 9 50).isOk = true := by
  obtain ⟨t1, t2, t3, t4, t5⟩ := email_uniqueness
  refine ⟨?_, ?_, ?_, ?_, ?_⟩
  · exact t1 [exContactA] exCreateDup 9 50 "ada@example.com" rfl (by decide)
      (by decide)
  · exact t2 [exContactA, exContactB] 2 exEmailToAda 50 "ada@example.com" rfl
      (by decide) (by decide) (by decide)
  · exact t3 [exContactA, exContactB] 1 exEmailToAda 50 exContactA
      "ada@example.com" (by decide) rfl rfl rfl (by decide)
  · exact t4 [exContactA] exCreateNoEmail 9 50 rfl
  · exact t5 [exContactA] exCreateFresh 9 50 "fresh@example.com" rfl (by decide)

/-- C9: for a non-empty tag filter, the Contact list filter admits exactly
the contacts carrying every listed tag (with no other filters supplied). -/
theorem tag_filter_requires_all (contacts : List Contact) (tags : List String)
    (hne : tags ≠ []) (c : Contact) :
    c ∈ filteredContacts contacts none none (some tags) ↔
      c ∈ contacts ∧ ∀ t ∈ tags, t ∈ c.tags := by
  have hte : tags.isEmpty = false := by
    cases tags with
    | nil => exact absurd rfl hne
    | cons t ts => rfl
  simp [filteredContacts, hte, List.mem_filter, List.all_eq_true, List.elem_iff]

/-- Witness for C9 with the spec's example tag sets: `{vip, tech}` passes
the filters `{vip}` and `{vip, tech}`, while `{vip}` alone fails
`{vip, tech}`. -/
theorem tag_filter_requires_all_witness :
    (exContactA ∈ filteredContacts [exContactA, exContactB, exContactC] none none
        (some ["vip", "tech"]) ↔
      exContactA ∈ [exContactA, exContactB, exContactC] ∧
        ∀ t ∈ ["vip", "tech"], t ∈ exContactA.tags)
  ∧ (exContactB ∈ filteredContacts [exContactA, exContactB, exContactC] none none
        (some ["vip", "tech"]) ↔
      exContactB ∈ [exContactA, exContactB, exContactC] ∧
        ∀ t ∈ ["vip", "tech"], t ∈ exContactB.tags)
  ∧ (exContactA ∈ filteredContacts [exContactA, exContactB, exContactC] none none
        (some ["vip"]) ↔
      exContactA ∈ [exContactA, exContactB, exContactC] ∧
        ∀ t ∈ ["vip"], t ∈ exContactA.tags) :=
  ⟨tag_filter_requires_all [exContactA, exContactB, exContactC] ["vip", "tech"]
      (by decide) exContactA,
   tag_filter_requires_all [exContactA, exContactB, exContactC] ["vip", "tech"]
      (by decide) exContactB,
   tag_filter_requires_all [exContactA, exContactB, exContactC] ["vip"]
      (by decide) exContactA⟩

/-- C10: none of the Interaction/Proposal/Action update schemas exposes
`contact_id`, so the owning contact of a child entity is invariant under
every partial update. -/
theorem contact_id_immutable (now : Int) (i : Interaction) (ui : InteractionUpdate)
    (p : Proposal) (up : ProposalUpdate) (a : Action) (ua : ActionUpdate) :
    (applyInteractionUpdate now i ui).contact_id = i.contact_id
  ∧ (applyProposalUpdate now p up).contact_id = p.contact_id
  ∧ (applyActionUpdate now a ua).contact_id = a.contact_id :=
  ⟨rfl, rfl, rfl⟩

def exCallAction1 : Action :=
  { id := 1, contact_id := 1, title := "Call 1", action_type := .call }

def exCallAction2 : Action :=
  { id := 2, contact_id := 1, title := "Call 2", action_type := .call }

def exEmailAction : Action :=
  { id := 3, contact_id := 1, title := "Email", action_type := .email }

/-- C7: `count_actions_by_type` as implemented diverges from the counts the
spec and the repository's own test `test_count_actions_by_type` demand.  On
the test's own input - two call actions and one email action, all pending -
the query's mis-matched SELECT/GROUP BY pair keys the mapping by the rows'
*status* (both groups collapse onto the key `pending`, the later group
overwriting the earlier), while the intended grouping yields
`{call: 2, email: 1}`; the test's `counts[ActionType.call]` lookup cannot
succeed on the actual result. -/
theorem count_actions_by_type_bug :
    count_actions_by_type [exCallAction1, exCallAction2, exEmailAction] none
      = [(ActionStatus.pending, 1)]
  ∧ count_actions_by_type_expected [exCallAction1, exCallAction2, exEmailAction]
      none = [(ActionType.call, 2), (ActionType.email, 1)] := by
  decide

/-! ## Lemmas on grouped tables for C8 -/

/-- `find?` over a table built from distinct keys: the entry at an occurring
key, nothing otherwise. -/
theorem find?_table {κ β : Type} [DecidableEq κ] (occ : κ → Bool) (g : κ → β)
    (s : κ) : ∀ ss : List κ, ss.Nodup → s ∈ ss →
    ((ss.filter occ).map fun t => (t, g t)).find? (fun kv => kv.1 == s)
      = if occ s then some (s, g s) else none
  | [], _, hs => nomatch hs
  | t :: ts, hnd, hs => by
    rw [List.nodup_cons] at hnd
    rcases List.mem_cons.mp hs with rfl | hs'
    · cases hocc : occ s
      · rw [List.filter_cons, if_neg (by simp [hocc]), if_neg (by simp [hocc])]
        rw [List.find?_eq_none]
        intro kv hkv
        simp only [List.mem_map, List.mem_filter] at hkv
        obtain ⟨t2, ⟨htm, _⟩, rfl⟩ := hkv
        simp only [beq_iff_eq]
        intro h
        exact hnd.1 (h ▸ htm)
      · rw [List.filter_cons, if_pos (by simp [hocc]), if_pos rfl]
        simp [List.find?_cons]
    · have hts : t ≠ s := fun h => hnd.1 (h ▸ hs')
      cases hocc : occ t
      · rw [List.filter_cons, if_neg (by simp [hocc])]
        exact find?_table occ g s ts hnd.2 hs'
      · rw [List.filter_cons, if_pos (by simp [hocc]), List.map_cons,
          List.find?_cons]
        have hbeq : ((t, g t).1 == s) = false := by simp [hts]
        simp only [hbeq]
        exact find?_table occ g s ts hnd.2 hs'

/-- `dict.get` over a grouped table: the group's value at an occurring key,
the default otherwise. -/
theorem lookupD_table {κ β : Type} [DecidableEq κ] (ss : List κ) (occ : κ → Bool)
    (g : κ → β) (s : κ) (d : β) (hnd : ss.Nodup) (hs : s ∈ ss) :
    lookupD ((ss.filter occ).map fun t => (t, g t)) s d
      = if occ s then g s else d := by
  rw [lookupD, find?_table occ g s ss hnd hs]
  cases occ s <;> simp

/-- Summing a grouped table's values over the occurring keys equals summing
over all keys with the default 0 filled in for the others. -/
theorem sum_filter_map {κ M : Type} [AddCommMonoid M] (occ : κ → Bool)
    (g : κ → M) : ∀ ss : List κ,
    ((ss.filter occ).map g).sum = (ss.map fun s => if occ s then g s else 0).sum
  | [] => rfl
  | t :: ts => by
    cases hocc : occ t <;>
      simp [List.filter_cons, hocc, sum_filter_map occ g ts]

/-- C8: the composed proposal-stats view (scope valid when given) reports an
entry for every one of the six declared statuses - the exact count and exact
value sum of the scoped proposals of that status, 0 and 0.0 when none match -
and its `total_count` / `total_value` are the sums of the per-status
entries. -/
theorem proposal_stats_complete (db : DB) (contact_id : Option Nat)
    (hscope : ∀ cid, contact_id = some cid → cid ≠ 0 →
      ∃ c ∈ db.contacts, c.id = cid) :
    ∃ st, get_proposal_stats db contact_id = .ok st
      ∧ st.by_status.map (fun e => e.1) = allProposalStatuses
      ∧ (∀ s ∈ allProposalStatuses,
          (s, ((scopedProposals db.proposals contact_id).filter
              fun p => p.status == s).length,
            proposalValueSum ((scopedProposals db.proposals contact_id).filter
              fun p => p.status == s)) ∈ st.by_status)
      ∧ st.total_count = (st.by_status.map fun e => e.2.1).sum
      ∧ st.total_value = (st.by_status.map fun e => e.2.2).sum := by
  have hnodup : allProposalStatuses.Nodup := by decide
  have hcounts : count_proposals_by_status db.proposals contact_id
      = ((allProposalStatuses.filter fun s =>
            (scopedProposals db.proposals contact_id).any fun p =>
              p.status == s).map
          fun s => (s, ((scopedProposals db.proposals contact_id).filter
            fun p => p.status == s).length)) := rfl
  have htotals : get_total_value_by_status db.proposals contact_id
      = ((allProposalStatuses.filter fun s =>
            (scopedProposals db.proposals contact_id).any fun p =>
              p.status == s).map
          fun s => (s, proposalValueSum ((scopedProposals db.proposals
            contact_id).filter fun p => p.status == s))) := rfl
  have hok : get_proposal_stats db contact_id = .ok
      { total_count := ((count_proposals_by_status db.proposals contact_id).map
            fun e => e.2).sum
        total_value := ((get_total_value_by_status db.proposals contact_id).map
            fun e => e.2).sum
        by_status := allProposalStatuses.map fun s =>
          (s, lookupD (count_proposals_by_status db.proposals contact_id) s 0,
            lookupD (get_total_value_by_status db.proposals contact_id) s 0) } := by
    cases hci : contact_id with
    | none => rfl
    | some cid =>
      by_cases hz : cid = 0
      · subst hz
        rfl
      · obtain ⟨c, hcm, hce⟩ := hscope cid hci hz
        obtain ⟨x, hx⟩ := Option.isSome_iff_exists.mp (show
            (get_contact db.contacts cid).isSome = true by
          rw [get_contact, List.find?_isSome]
          exact ⟨c, hcm, by simp [hce]⟩)
        have hcz : (cid != 0) = true := by simp [hz]
        simp [get_proposal_stats, hcz, hx]
  have hzero : ∀ s, ((scopedProposals db.proposals contact_id).any fun p =>
      p.status == s) = false →
      (scopedProposals db.proposals contact_id).filter (fun p => p.status == s)
        = [] := by
    intro s h
    rw [List.filter_eq_nil_iff]
    intro p hp
    exact (List.any_eq_false.mp h) p hp
  have hlc : ∀ s ∈ allProposalStatuses,
      lookupD (count_proposals_by_status db.proposals contact_id) s 0
        = if ((scopedProposals db.proposals contact_id).any fun p =>
            p.status == s) then
          ((scopedProposals db.proposals contact_id).filter
            fun p => p.status == s).length
        else 0 := by
    intro s hs
    rw [hcounts]
    exact lookupD_table allProposalStatuses
      (fun s => (scopedProposals db.proposals contact_id).any fun p =>
        p.status == s)
      (fun s => ((scopedProposals db.proposals contact_id).filter
        fun p => p.status == s).length) s 0 hnodup hs
  have hlt : ∀ s ∈ allProposalStatuses,
      lookupD (get_total_value_by_status db.proposals contact_id) s 0
        = if ((scopedProposals db.proposals contact_id).any fun p =>
            p.status == s) then
          proposalValueSum ((scopedProposals db.proposals contact_id).filter
            fun p => p.status == s)
        else 0 := by
    intro s hs
    rw [htotals]
    exact lookupD_table allProposalStatuses
      (fun s => (scopedProposals db.proposals contact_id).any fun p =>
        p.status == s)
      (fun s => proposalValueSum ((scopedProposals db.proposals
        contact_id).filter fun p => p.status == s)) s 0 hnodup hs
  refine ⟨_, hok, ?_, ?_, ?_, ?_⟩
  · exact (List.map_congr_left fun s _ => rfl).trans
      (List.map_id allProposalStatuses)
  · intro s hs
    rw [List.mem_map]
    refine ⟨s, hs, ?_⟩
    rw [hlc s hs, hlt s hs]
    cases hoc : ((scopedProposals db.proposals contact_id).any fun p =>
        p.status == s)
    · simp [hzero s hoc, proposalValueSum]
    · simp
  · show ((count_proposals_by_status db.proposals contact_id).map
        fun e => e.2).sum = _
    conv_lhs => rw [hcounts, List.map_map]
    rw [sum_filter_map]
    conv_rhs => rw [List.map_map]
    refine congrArg List.sum (List.map_congr_left fun s hs => ?_)
    simp only [Function.comp_apply, hlc s hs]
  · show ((get_total_value_by_status db.proposals contact_id).map
        fun e => e.2).sum = _
    conv_lhs => rw [htotals, List.map_map]
    rw [sum_filter_map]
    conv_rhs => rw [List.map_map]
    refine congrArg List.sum (List.map_congr_left fun s hs => ?_)
    simp only [Function.comp_apply, hlt s hs]

def exProposalDraft2 : Proposal :=
  { id := 2, contact_id := 1, title := "Logo", value := some 7000,
    status := .draft, created_at := 6 }

def exProposalWon : Proposal :=
  { id := 3, contact_id := 1, title := "App", value := some 15000,
    status := .won, created_at := 7 }

/-- The store of spec property 8: one contact, proposals
draft/5000, draft/7000, won/15000. -/
def exStatsDB : DB :=
  { contacts := [exContactA]
    proposals := [exProposalA, exProposalDraft2, exProposalWon] }

/-- Witness for C8 on the spec's stats scenario, scoped to contact 1. -/
theorem proposal_stats_complete_witness :
    ∃ st, get_proposal_stats exStatsDB (some 1) = .ok st
      ∧ st.by_status.map (fun e => e.1) = allProposalStatuses
      ∧ (∀ s ∈ allProposalStatuses,
          (s, ((scopedProposals exStatsDB.proposals (some 1)).filter
              fun p => p.status == s).length,
            proposalValueSum ((scopedProposals exStatsDB.proposals
              (some 1)).filter fun p => p.status == s)) ∈ st.by_status)
      ∧ st.total_count = (st.by_status.map fun e => e.2.1).sum
      ∧ st.total_value = (st.by_status.map fun e => e.2.2).sum :=
  proposal_stats_complete exStatsDB (some 1) (by
    intro cid h hz
    injection h with h1
    subst h1
    exact ⟨exContactA, by decide, rfl⟩)

end Crm
